import Mathlib

/-!
Verification of the serving shell of `src/openvino/server.py` (mt-photos-ai,
OpenVINO variant): a FastAPI server exposing `/ocr`, `/clip/img`, `/clip/txt`
inference routes plus `/check`, `/restart`, `/restart_v2` administration routes,
with an api-key auth dependency (`verify_header`), lazy once-only model loading
(`load_ocr_model`, `load_clip_img_model`, `load_clip_txt_model`), an
idle-restart watchdog timer (`check_activity` middleware, `restart_timer`,
`restart_program`), and result normalization (`to_fixed`, `trans_result`,
`"{:.16f}".format`).

Modelling conventions:
* Python floats are modelled as exact rationals (`ℚ`); `round(x, 2)` is
  round-half-to-even (`roundHalfEven`), `str`/format rendering is decimal.
* External collaborators (cv2 decode, the RapidOCR engine, the CLIP encoders)
  are parameters of the handlers: a decode result is an `Option Image`
  (`cv2.imdecode` returns `None` on undecodable bytes) and an engine is an
  oracle function returning `Except String _` (`.error` = raised exception).
* An uncaught Python exception escaping a handler is the `.error` case of the
  handler's `Except String _` outcome; a `try/except Exception` block is the
  `match` turning `.error e` into the soft-fail response
  `{'result': [], 'msg': str(e)}`.
* Handlers are state transformers on the module-level model slots and also
  emit an event trace recording model constructions and engine invocations,
  so that "the engine is never invoked" is a statement about the trace.
-/

namespace MTPhotosAI

/-! ### Decimal string rendering (embedding of Python number formatting) -/

/-- One decimal digit character, as Python prints it. -/
def digitChar : ℕ → Char
  | 0 => '0'
  | 1 => '1'
  | 2 => '2'
  | 3 => '3'
  | 4 => '4'
  | 5 => '5'
  | 6 => '6'
  | 7 => '7'
  | 8 => '8'
  | 9 => '9'
  | _ => '?'

/-- Little-endian decimal digits of `n` (fuel-based so the kernel can reduce it). -/
def natDigitsAux : ℕ → ℕ → List ℕ
  | 0, _ => []
  | fuel + 1, n => if n = 0 then [] else n % 10 :: natDigitsAux fuel (n / 10)

/-- Big-endian decimal digit characters of `n`; `[]` for `n = 0`. -/
def natDigitChars (n : ℕ) : List Char :=
  ((natDigitsAux n n).map digitChar).reverse

/-- Big-endian digit characters, printing `0` as `['0']` (what `str` shows). -/
def natDigitChars' (n : ℕ) : List Char :=
  if n = 0 then ['0'] else natDigitChars n

/-- The exactly-`prec` fractional digit characters of `fp < 10 ^ prec`,
most significant first (zero padded on the left), as `"{:.Nf}"` prints them. -/
def fracDigits (prec fp : ℕ) : List Char :=
  (List.range prec).map (fun i => digitChar (fp / 10 ^ (prec - 1 - i) % 10))

/-- Python `round` to an integer: nearest, ties to even (on exact rationals). -/
def roundHalfEven (q : ℚ) : ℤ :=
  let f : ℤ := Int.fdiv q.num q.den
  let r : ℚ := q - f
  if r < 1 / 2 then f
  else if 1 / 2 < r then f + 1
  else if f % 2 = 0 then f else f + 1

/-- Render the integer `scaled` (= the value times `10 ^ prec`, already rounded)
with exactly `prec` digits after the decimal point, as `"{:.Nf}"` does. -/
def renderFixed (prec : ℕ) (scaled : ℤ) : String :=
  String.mk
    ((if scaled < 0 then ['-'] else []) ++
      natDigitChars' (scaled.natAbs / 10 ^ prec) ++
      '.' :: fracDigits prec (scaled.natAbs % 10 ^ prec))

/-- Embedding of Python `"{:.Nf}".format(x)` (the server uses `N = 2` for OCR
confidence scores and `N = 16` for CLIP embedding components). -/
def formatFixed (prec : ℕ) (q : ℚ) : String :=
  renderFixed prec (roundHalfEven (q * (10 : ℚ) ^ prec))

/-- Render `scaled` (= the value times 100, already rounded by `round(·, 2)`)
the way Python `str` prints the resulting float: minimal fractional digits,
but always at least one (`str(2.0) = "2.0"`, `str(2.5) = "2.5"`,
`str(2.25) = "2.25"`). -/
def renderRound2 (scaled : ℤ) : String :=
  String.mk
    ((if scaled < 0 then ['-'] else []) ++
      natDigitChars' (scaled.natAbs / 100) ++
      '.' :: (if scaled.natAbs % 100 = 0 then ['0']
              else if scaled.natAbs % 100 % 10 = 0 then
                natDigitChars (scaled.natAbs % 100 / 10)
              else fracDigits 2 (scaled.natAbs % 100)))

/-- Embedding of `to_fixed` (server.py line 74): `str(round(num, 2))`. -/
def to_fixed (q : ℚ) : String :=
  renderRound2 (roundHalfEven (q * 100))

/-- Number of characters strictly after the (first) decimal point. -/
def decimalsAfterPoint (s : String) : ℕ :=
  ((s.data.dropWhile (fun c => c != '.')).drop 1).length

/-! ### OCR result normalization (`trans_result`, server.py lines 78-95) -/

/-- One raw detection from the RapidOCR engine: a quadrilateral box (four
corner points, `dt_box[0] .. dt_box[3]`, each an x/y pair), the recognized
text (`res_i[1]`) and a confidence (`res_i[2]`). -/
structure RawOcrItem where
  p0 : ℚ × ℚ
  p1 : ℚ × ℚ
  p2 : ℚ × ℚ
  p3 : ℚ × ℚ
  text : String
  score : ℚ
  deriving Repr

/-- The normalized box shape: `{'x', 'y', 'width', 'height'}`, each a string. -/
structure OcrBox where
  x : String
  y : String
  width : String
  height : String
  deriving Repr, DecidableEq

/-- The normalized OCR result `{'texts': .., 'scores': .., 'boxes': ..}`. -/
structure OcrResult where
  texts : List String
  scores : List String
  boxes : List OcrBox
  deriving Repr, DecidableEq

/-- The box built for one raw detection (`trans_result`'s loop body):
`x`/`y` from corner 0, `width` from corners 1 and 0, `height` from
corners 2 and 0, all through `to_fixed`. -/
def boxOf (r : RawOcrItem) : OcrBox :=
  { x := to_fixed r.p0.1
    y := to_fixed r.p0.2
    width := to_fixed (r.p1.1 - r.p0.1)
    height := to_fixed (r.p2.2 - r.p0.2) }

/-- Embedding of `trans_result` (server.py lines 78-95): `None` yields three
empty lists; otherwise the loop appends, for each raw detection in order, one
text, one `"{:.2f}"` score and one box. -/
def trans_result : Option (List RawOcrItem) → OcrResult
  | none => { texts := [], scores := [], boxes := [] }
  | some result =>
    { texts := result.map (fun r => r.text)
      scores := result.map (fun r => formatFixed 2 r.score)
      boxes := result.map boxOf }

/-! ### Server state, events and handlers -/

/-- A decoded pixel buffer; only its dimensions (`img.shape`) matter to the
serving shell. -/
structure Image where
  width : ℕ
  height : ℕ
  deriving Repr, DecidableEq

/-- The module-level model slots (`rapid_ocr`, `clip_img_model`,
`clip_txt_model`, server.py lines 25-27); `true` = the global is non-`None`. -/
structure Models where
  rapid_ocr : Bool
  clip_img_model : Bool
  clip_txt_model : Bool
  deriving Repr, DecidableEq

/-- All three slots start out `None`. -/
def modelsInit : Models :=
  { rapid_ocr := false, clip_img_model := false, clip_txt_model := false }

/-- Observable side effects of a request: constructing a model
(`RapidOCR()`, `clip.load_img_model()`, `clip.load_txt_model()`) and invoking
an inference engine (`rapid_ocr(img)`, `clip.process_image`,
`clip.process_txt`).  `/clip/img` passes the raw `cv2.imdecode` result
(possibly `None`) straight to the engine, hence the `Option Image` payload. -/
inductive Event where
  | constructOcr : Event
  | constructClipImg : Event
  | constructClipTxt : Event
  | invokeOcr : Image → Event
  | invokeClipImg : Option Image → Event
  | invokeClipTxt : String → Event
  deriving Repr, DecidableEq

/-- Is this event an inference-engine invocation? -/
def Event.isInvoke : Event → Bool
  | .invokeOcr _ => true
  | .invokeClipImg _ => true
  | .invokeClipTxt _ => true
  | _ => false

/-- `load_ocr_model` (lines 32-35): construct iff the global is `None`. -/
def load_ocr_model (st : Models) : Models × List Event :=
  if st.rapid_ocr then (st, [])
  else ({ st with rapid_ocr := true }, [.constructOcr])

/-- `load_clip_img_model` (lines 37-40). -/
def load_clip_img_model (st : Models) : Models × List Event :=
  if st.clip_img_model then (st, [])
  else ({ st with clip_img_model := true }, [.constructClipImg])

/-- `load_clip_txt_model` (lines 42-45). -/
def load_clip_txt_model (st : Models) : Models × List Event :=
  if st.clip_txt_model then (st, [])
  else ({ st with clip_txt_model := true }, [.constructClipTxt])

/-- The message of the `AttributeError` raised by `img.shape` when
`cv2.imdecode` returned `None`. -/
def noneShapeMsg : String := "NoneType object has no attribute shape"

/-- The bounds message returned for oversized images (line 146). -/
def boundsMsg : String := "height or width out of range"

/-- Response shape of `/ocr`: either `{'result': <trans_result output>}` or
the soft-fail `{'result': [], 'msg': msg}`. -/
inductive OcrResponse where
  | ok : OcrResult → OcrResponse
  | softFail : String → OcrResponse
  deriving Repr, DecidableEq

/-- Response shape of `/clip/img` and `/clip/txt`: either
`{'result': [str, ...]}` or the soft-fail `{'result': [], 'msg': msg}`. -/
inductive ClipResponse where
  | ok : List String → ClipResponse
  | softFail : String → ClipResponse
  deriving Repr, DecidableEq

/-- The RapidOCR engine as an oracle: raw result `_result[0]` of
`rapid_ocr(img)` (an optional detection list), or a raised exception. -/
def OcrEngine : Type :=
  Image → Except String (Option (List RawOcrItem))

/-- The CLIP image encoder as an oracle on the (possibly `None`) decode
result, returning an embedding vector or raising. -/
def ClipImgEngine : Type :=
  Option Image → Except String (List ℚ)

/-- The CLIP text encoder as an oracle. -/
def ClipTxtEngine : Type :=
  String → Except String (List ℚ)

/-- Rendering of an embedding vector: `["{:.16f}".format(vec) for vec in result]`
(lines 165 and 176). -/
def clip_render (result : List ℚ) : List String :=
  result.map (fun vec => formatFixed 16 vec)

/-- The `try:` block of `/ocr` (lines 141-151): decode (`None` ⇒ the `.shape`
access raises), then the 10000px bound check, then the engine call and
normalization.  `.error` = an exception to be caught by the `except` clause. -/
def ocr_try (eng : OcrEngine) (decoded : Option Image) :
    List Event × Except String OcrResponse :=
  match decoded with
  | none => ([], .error noneShapeMsg)
  | some img =>
    if img.width > 10000 ∨ img.height > 10000 then
      ([], .ok (.softFail boundsMsg))
    else
      match eng img with
      | .error msg => ([.invokeOcr img], .error msg)
      | .ok raw => ([.invokeOcr img], .ok (.ok (trans_result raw)))

/-- Embedding of the `/ocr` handler `process_image` (lines 137-154), after
auth: `load_ocr_model()` first, then the `try/except` around decode, bound
check, engine call and normalization; `except Exception` returns
`{'result': [], 'msg': str(e)}`.  The outcome is `Except`-valued so an
unhandled fault would be `.error`, but the `except` clause catches all. -/
def process_image (eng : OcrEngine) (decoded : Option Image) (st : Models) :
    Models × List Event × Except String OcrResponse :=
  let (st1, ev1) := load_ocr_model st
  let (ev2, body) := ocr_try eng decoded
  match body with
  | .ok r => (st1, ev1 ++ ev2, .ok r)
  | .error e => (st1, ev1 ++ ev2, .ok (.softFail e))

/-- The `try:` block of `/clip/img` (lines 160-165): the decode result —
`None` included — is passed straight to `clip.process_image`; there is no
dimension check in this handler. -/
def clip_img_try (eng : ClipImgEngine) (decoded : Option Image) :
    List Event × Except String ClipResponse :=
  match eng decoded with
  | .error msg => ([.invokeClipImg decoded], .error msg)
  | .ok vec => ([.invokeClipImg decoded], .ok (.ok (clip_render vec)))

/-- Embedding of the `/clip/img` handler `clip_process_image` (lines 156-168),
after auth: `load_clip_img_model()` first, then the `try/except` around the
engine call. -/
def clip_process_image (eng : ClipImgEngine) (decoded : Option Image)
    (st : Models) : Models × List Event × Except String ClipResponse :=
  let (st1, ev1) := load_clip_img_model st
  let (ev2, body) := clip_img_try eng decoded
  match body with
  | .ok r => (st1, ev1 ++ ev2, .ok r)
  | .error e => (st1, ev1 ++ ev2, .ok (.softFail e))

/-- Embedding of the `/clip/txt` handler `clip_process_txt` (lines 170-176),
after auth: `load_clip_txt_model()`, then the engine call with NO
`try/except` — an engine exception escapes the handler (`.error`). -/
def clip_process_txt (eng : ClipTxtEngine) (text : String) (st : Models) :
    Models × List Event × Except String ClipResponse :=
  let (st1, ev1) := load_clip_txt_model st
  match eng text with
  | .error msg => (st1, ev1 ++ [.invokeClipTxt text], .error msg)
  | .ok vec => (st1, ev1 ++ [.invokeClipTxt text], .ok (.ok (clip_render vec)))

/-! ### Authentication (`verify_header`, lines 67-71) -/

/-- A `fastapi.HTTPException`. -/
structure HttpError where
  status_code : ℕ
  detail : String
  deriving Repr, DecidableEq

/-- Embedding of `verify_header`: the supplied `api-key` header value is
compared to the configured secret by string inequality; a mismatch raises
`HTTPException(status_code=401, detail="Invalid API key")`. -/
def verify_header (secret api_key : String) : Except HttpError String :=
  if api_key ≠ secret then .error { status_code := 401, detail := "Invalid API key" }
  else .ok api_key

/-- A protected route: FastAPI evaluates the `Depends(verify_header)`
dependency before the handler body runs, so on auth failure the handler —
and hence any model work — is never reached. -/
def protected_route {α : Type} (secret api_key : String)
    (handler : Models → Models × List Event × α) (st : Models) :
    Models × List Event × Except HttpError α :=
  match verify_header secret api_key with
  | .error e => (st, [], .error e)
  | .ok _ =>
    let (st1, ev, r) := handler st
    (st1, ev, .ok r)

/-! ### `/restart`, `/restart_v2` and `restart_program` (lines 125-135, 181-183) -/

/-- The invocation context of the running process: `sys.executable` and
`sys.argv`. -/
structure Proc where
  executable : String
  argv : List String
  deriving Repr, DecidableEq

/-- What a handler does to the process: return a JSON reply, or replace the
process image (`os.execl(prog, *args)` never returns). -/
inductive ProcOutcome where
  | reply : String → ProcOutcome
  | reexec : String → List String → ProcOutcome
  deriving Repr, DecidableEq

/-- Embedding of `restart_program` (lines 181-183):
`os.execl(sys.executable, sys.executable, *sys.argv)` — replace the process
image with the same interpreter running the same argument vector. -/
def restart_program (p : Proc) : ProcOutcome :=
  .reexec p.executable (p.executable :: p.argv)

/-- The `/restart` handler body (lines 125-129): the `restart_program()` call
is commented out; the route just returns `{'result': 'pass'}`. -/
def restart_handler (_p : Proc) : ProcOutcome :=
  .reply "pass"

/-- The `/restart_v2` handler body (lines 131-135): calls `restart_program()`;
the trailing `return {'result': 'pass'}` is unreachable because `os.execl`
replaces the process. -/
def restart_v2_handler (p : Proc) : ProcOutcome :=
  restart_program p

/-! ### Idle-restart watchdog (`check_activity` middleware, lines 54-65)

Timestamps are drawn from an arbitrary linearly ordered type with an
addition (instantiable at `ℚ` for real-valued clocks); `w` is the configured
`SERVER_RESTART_TIME` window.  The middleware holds at most one pending
`threading.Timer`; its state is the optional deadline of that timer. -/

/-- The module-level initialization `restart_timer = None` (line 24):
before the first request no timer is pending. -/
def watchdogInit {α : Type} : Option α := none

/-- How many timers are pending in a given watchdog state. -/
def pendingCount {α : Type} : Option α → ℕ
  | none => 0
  | some _ => 1

/-- The body of the `check_activity` middleware (lines 54-62) for a request
arriving at time `now`: cancel the pending timer if any, then start a fresh
`threading.Timer(server_restart_time, restart_program)`.  (There is no await
point between the cancel and the start, so the pair is one atomic step of the
event loop.) -/
def check_activity {α : Type} [Add α] (w now : α) (_pending : Option α) :
    Option α :=
  some (now + w)

/-- Timed semantics of the watchdog over a trace of request arrival times:
given the pending deadline, process the remaining requests and return the
list of instants at which a restart fires.  A timer whose deadline passes
before the next request fires (the process re-execs; the next request then
reaches a fresh process whose `restart_timer` is `None`); otherwise the
request cancels it and arms a new one `w` in the future.  After the last
request the armed timer eventually fires. -/
def watchdogRun {α : Type} [LinearOrder α] [Add α] (w : α) :
    Option α → List α → List α
  | pending, [] =>
    match pending with
    | none => []
    | some d => [d]
  | pending, t :: rest =>
    match pending with
    | none => watchdogRun w (check_activity w t none) rest
    | some d =>
      if d ≤ t then d :: watchdogRun w (check_activity w t none) rest
      else watchdogRun w (check_activity w t (some d)) rest

/-- Number of restarts triggered up to (and including) time `T`, for a server
started with no pending timer receiving requests at times `ts`. -/
def restartsBy {α : Type} [LinearOrder α] [Add α] (w : α) (ts : List α)
    (T : α) : ℕ :=
  ((watchdogRun w watchdogInit ts).filter (fun d => d ≤ T)).length

/-! ### Lazy single-construction under cooperative concurrency

`load_ocr_model` and friends run synchronously inside `async def` handlers on
uvicorn's single event loop: there is no await point between the `is None`
test and the assignment, so each load call is one atomic step.  An
interleaving of any number of concurrent first-time requests is therefore an
arbitrary sequence of atomic load steps, one per request reaching its load
call, in any order. -/

/-- The three model kinds. -/
inductive ModelKind where
  | ocr : ModelKind
  | clipImg : ModelKind
  | clipTxt : ModelKind
  deriving Repr, DecidableEq

/-- The load function a request for the given kind executes. -/
def loadFor : ModelKind → Models → Models × List Event
  | .ocr => load_ocr_model
  | .clipImg => load_clip_img_model
  | .clipTxt => load_clip_txt_model

/-- The construction event of each kind. -/
def constructEvent : ModelKind → Event
  | .ocr => .constructOcr
  | .clipImg => .constructClipImg
  | .clipTxt => .constructClipTxt

/-- Whether the slot of a kind is loaded. -/
def slotLoaded (st : Models) : ModelKind → Bool
  | .ocr => st.rapid_ocr
  | .clipImg => st.clip_img_model
  | .clipTxt => st.clip_txt_model

/-- Run a schedule: an arbitrary interleaving of the atomic load steps of any
number of requests, accumulating the construction events. -/
def runSchedule : Models × List Event → List ModelKind → Models × List Event
  | st, [] => st
  | (m, evs), k :: rest =>
    let (m1, evs1) := loadFor k m
    runSchedule (m1, evs ++ evs1) rest

/-! ### Concrete inputs used to refute or witness individual claims -/

/-- A raw detection whose box corner x-coordinate is the integral value `2`:
`str(round(2.0, 2))` prints `"2.0"`, one decimal place. -/
def c3Item : RawOcrItem :=
  { p0 := (((2 : ℤ) : ℚ), ((3 : ℤ) : ℚ))
    p1 := (((7 : ℤ) : ℚ), ((3 : ℤ) : ℚ))
    p2 := (((7 : ℤ) : ℚ), ((4 : ℤ) : ℚ))
    p3 := (((2 : ℤ) : ℚ), ((4 : ℤ) : ℚ))
    text := "hello"
    score := ((1 : ℤ) : ℚ) }

/-- A raw detection used to exercise the index-alignment of `trans_result`. -/
def c7Item : RawOcrItem :=
  { p0 := (1, 2)
    p1 := (5, 2)
    p2 := (5, 3)
    p3 := (1, 3)
    text := "word"
    score := 1 }

end MTPhotosAI

namespace MTPhotosAI

/-! ### Formatting lemmas -/

/-- `round` is the identity on integral values (`round(2.0, 2) == 2.0`). -/
theorem roundHalfEven_intCast (z : ℤ) : roundHalfEven ((z : ℚ)) = z := by
  simp only [roundHalfEven, Rat.num_intCast, Rat.den_intCast, Nat.cast_one, Int.fdiv_one,
    sub_self]
  norm_num

/-- Evaluating `to_fixed` at an integral value reduces to pure-integer rendering. -/
theorem to_fixed_intCast (z : ℤ) : to_fixed ((z : ℚ)) = renderRound2 (z * 100) := by
  have h : ((z : ℚ)) * 100 = (((z * 100 : ℤ) : ℚ)) := by push_cast; ring
  rw [to_fixed, h, roundHalfEven_intCast]

/-- Evaluating `formatFixed` at an integral value reduces to pure-integer rendering. -/
theorem formatFixed_intCast (prec : ℕ) (z : ℤ) :
    formatFixed prec ((z : ℚ)) = renderFixed prec (z * 10 ^ prec) := by
  have h : ((z : ℚ)) * (10 : ℚ) ^ prec = (((z * 10 ^ prec : ℤ) : ℚ)) := by push_cast; ring
  rw [formatFixed, h, roundHalfEven_intCast]

example : renderRound2 (2 * 100) = "2.0" := by decide
example : renderRound2 250 = "2.5" := by decide
example : renderRound2 225 = "2.25" := by decide
example : renderRound2 (-150) = "-1.5" := by decide
example : renderFixed 2 150 = "1.50" := by decide
example : renderFixed 2 0 = "0.00" := by decide
example : renderFixed 16 5000000000000000 = "0.5000000000000000" := by decide
example : decimalsAfterPoint "2.0" = 1 := by decide

/-- No digit character is the decimal point. -/
theorem digitChar_ne_dot (d : ℕ) : digitChar d ≠ '.' := by
  unfold digitChar
  split <;> decide

/-- Digit strings contain no decimal point. -/
theorem natDigitChars_ne_dot (n : ℕ) : ∀ c ∈ natDigitChars n, c ≠ '.' := by
  intro c hc
  simp only [natDigitChars, List.mem_reverse, List.mem_map] at hc
  obtain ⟨d, _, rfl⟩ := hc
  exact digitChar_ne_dot d

/-- Digit strings (with `0` printed) contain no decimal point. -/
theorem natDigitChars'_ne_dot (n : ℕ) : ∀ c ∈ natDigitChars' n, c ≠ '.' := by
  intro c hc
  unfold natDigitChars' at hc
  split at hc
  · simp at hc
    subst hc
    decide
  · exact natDigitChars_ne_dot n c hc

/-- Fractional digit blocks contain no decimal point. -/
theorem fracDigits_ne_dot (prec fp : ℕ) : ∀ c ∈ fracDigits prec fp, c ≠ '.' := by
  intro c hc
  simp only [fracDigits, List.mem_map] at hc
  obtain ⟨i, _, rfl⟩ := hc
  exact digitChar_ne_dot _

/-- A fractional digit block has exactly `prec` characters. -/
theorem fracDigits_length (prec fp : ℕ) : (fracDigits prec fp).length = prec := by
  simp [fracDigits]

theorem natDigitsAux_zero (fuel : ℕ) : natDigitsAux fuel 0 = [] := by
  cases fuel <;> simp [natDigitsAux]

/-- A one-digit number prints as a single character. -/
theorem natDigitChars_single (n : ℕ) (h0 : 0 < n) (h9 : n < 10) :
    natDigitChars n = [digitChar n] := by
  cases n with
  | zero => omega
  | succ k =>
    have h1 : (k + 1) % 10 = k + 1 := Nat.mod_eq_of_lt h9
    have h2 : (k + 1) / 10 = 0 := Nat.div_eq_of_lt h9
    simp [natDigitChars, natDigitsAux, h1, h2, natDigitsAux_zero]

/-- Dropping the non-dot prefix of `pre ++ '.' :: post` lands on the dot. -/
theorem dropWhile_ne_dot (pre post : List Char) (h : ∀ c ∈ pre, c ≠ '.') :
    List.dropWhile (fun c => c != '.') (pre ++ '.' :: post) = '.' :: post := by
  induction pre with
  | nil => simp [List.dropWhile]
  | cons c cs ih =>
    have hc : c ≠ '.' := h c (by simp)
    simp only [List.cons_append, List.dropWhile_cons]
    rw [if_pos (by simpa using hc)]
    exact ih (fun x hx => h x (by simp [hx]))

/-- Counting characters after the point, when the prefix has no point. -/
theorem decimalsAfterPoint_mk (pre post : List Char) (h : ∀ c ∈ pre, c ≠ '.') :
    decimalsAfterPoint (String.mk (pre ++ '.' :: post)) = post.length := by
  simp [decimalsAfterPoint, dropWhile_ne_dot pre post h]

/-- Counting decimals of a sign-part / integer-part / fraction rendering. -/
theorem decimalsAfterPoint_parts (neg ip post : List Char)
    (h1 : ∀ c ∈ neg, c ≠ '.') (h2 : ∀ c ∈ ip, c ≠ '.') :
    decimalsAfterPoint (String.mk (neg ++ ip ++ '.' :: post)) = post.length := by
  refine decimalsAfterPoint_mk _ _ ?_
  intro c hc
  rcases List.mem_append.1 hc with hc | hc
  · exact h1 c hc
  · exact h2 c hc

/-- The optional minus sign contains no dot. -/
theorem sign_ne_dot (z : ℤ) : ∀ c ∈ (if z < 0 then ['-'] else ([] : List Char)), c ≠ '.' := by
  intro c hc
  split at hc
  · simp at hc
    subst hc
    decide
  · simp at hc

/-- The fixed-precision renderer always shows exactly `prec` decimals. -/
theorem decimalsAfterPoint_renderFixed (prec : ℕ) (z : ℤ) :
    decimalsAfterPoint (renderFixed prec z) = prec := by
  unfold renderFixed
  rw [decimalsAfterPoint_parts _ _ _ (sign_ne_dot z) (natDigitChars'_ne_dot _)]
  exact fracDigits_length ..

/-- `"{:.Nf}"` formatting always shows exactly `N` decimals. -/
theorem decimalsAfterPoint_formatFixed (prec : ℕ) (q : ℚ) :
    decimalsAfterPoint (formatFixed prec q) = prec :=
  decimalsAfterPoint_renderFixed prec _

/-- `str(round(·, 2))` shows at least one and at most two decimals. -/
theorem decimalsAfterPoint_renderRound2 (z : ℤ) :
    1 ≤ decimalsAfterPoint (renderRound2 z) ∧ decimalsAfterPoint (renderRound2 z) ≤ 2 := by
  unfold renderRound2
  rw [decimalsAfterPoint_parts _ _ _ (sign_ne_dot z) (natDigitChars'_ne_dot _)]
  split
  · simp
  · split
    · rename_i hfp hmod
      rw [natDigitChars_single (z.natAbs % 100 / 10)
          (Nat.div_pos (Nat.le_of_dvd (Nat.pos_of_ne_zero hfp) (Nat.dvd_of_mod_eq_zero hmod))
            (by norm_num))
          (Nat.div_lt_of_lt_mul (by omega))]
      simp
    · simp [fracDigits_length]

/-- `to_fixed` shows at least one and at most two decimals. -/
theorem decimalsAfterPoint_to_fixed (q : ℚ) :
    1 ≤ decimalsAfterPoint (to_fixed q) ∧ decimalsAfterPoint (to_fixed q) ≤ 2 :=
  decimalsAfterPoint_renderRound2 _

/-! ### Claim C3 -/

/-- C3, counterexample: the claim "every normalized numeric field is a string
with exactly 2 decimal places in OCR results (box x, y, width, height and each
score)" fails at a raw detection whose corner x-coordinate is the (finite)
value `2.0`: the box `x` field goes through `to_fixed`, i.e.
`str(round(2.0, 2))`, which prints `"2.0"` — one decimal place, not two. -/
theorem C3_counterexample :
    (trans_result (some [c3Item])).boxes.map OcrBox.x = [to_fixed ((2 : ℤ) : ℚ)] ∧
    to_fixed ((2 : ℤ) : ℚ) = "2.0" ∧
    decimalsAfterPoint (to_fixed ((2 : ℤ) : ℚ)) ≠ 2 := by
  refine ⟨?_, ?_, ?_⟩
  · simp [trans_result, boxOf, c3Item]
  · rw [to_fixed_intCast]
    decide
  · rw [to_fixed_intCast]
    decide

/-- C3 (amended): OCR confidence scores are rendered with exactly 2 decimal
places and embedding components with exactly 16, for every finite input
magnitude; but the OCR box coordinate fields (rendered by `to_fixed`, i.e.
`str(round(·, 2))`) carry between 1 and 2 decimal places, not always
exactly 2. -/
theorem C3_decimal_places (raw : Option (List RawOcrItem)) (vec : List ℚ) (q : ℚ) :
    (∀ s ∈ (trans_result raw).scores, decimalsAfterPoint s = 2) ∧
    (∀ s ∈ clip_render vec, decimalsAfterPoint s = 16) ∧
    (1 ≤ decimalsAfterPoint (to_fixed q) ∧ decimalsAfterPoint (to_fixed q) ≤ 2) := by
  refine ⟨?_, ?_, decimalsAfterPoint_to_fixed q⟩
  · cases raw with
    | none => simp [trans_result]
    | some l =>
      intro s hs
      simp only [trans_result, List.mem_map] at hs
      obtain ⟨r, _, rfl⟩ := hs
      exact decimalsAfterPoint_formatFixed 2 _
  · intro s hs
    simp only [clip_render, List.mem_map] at hs
    obtain ⟨v, _, rfl⟩ := hs
    exact decimalsAfterPoint_formatFixed 16 _

/-- Witness for C3's amended theorem at a concrete score and component. -/
theorem C3_decimal_places_witness :
    decimalsAfterPoint (formatFixed 2 c3Item.score) = 2 ∧
    decimalsAfterPoint (formatFixed 16 ((1 : ℤ) : ℚ)) = 16 :=
  ⟨(C3_decimal_places (some [c3Item]) [((1 : ℤ) : ℚ)] 0).1 (formatFixed 2 c3Item.score)
      (by simp [trans_result]),
    (C3_decimal_places (some [c3Item]) [((1 : ℤ) : ℚ)] 0).2.1 (formatFixed 16 ((1 : ℤ) : ℚ))
      (by simp [clip_render])⟩

/-! ### Claim C7 -/

/-- C7: for every raw OCR engine result, `None` included, `trans_result`
produces `texts`, `scores` and `boxes` of equal length, index-aligned — the
i-th text, score and box all come from the i-th raw detection — and a `None`
raw result yields three empty sequences rather than an error. -/
theorem C7_trans_result_aligned (raw : Option (List RawOcrItem)) :
    ((trans_result raw).texts.length = (trans_result raw).scores.length ∧
      (trans_result raw).texts.length = (trans_result raw).boxes.length) ∧
    trans_result none = { texts := [], scores := [], boxes := [] } ∧
    ∀ l, raw = some l → ∀ i, ∀ hi : i < l.length,
      (trans_result raw).texts[i]? = some ((l.get ⟨i, hi⟩).text) ∧
      (trans_result raw).scores[i]? = some (formatFixed 2 (l.get ⟨i, hi⟩).score) ∧
      (trans_result raw).boxes[i]? = some (boxOf (l.get ⟨i, hi⟩)) := by
  refine ⟨?_, rfl, ?_⟩
  · cases raw <;> simp [trans_result]
  · rintro l rfl i hi
    refine ⟨?_, ?_, ?_⟩ <;>
      simp [trans_result, List.getElem?_map, List.getElem?_eq_getElem hi]

/-- Witness for C7 at a concrete one-detection raw result and index 0. -/
theorem C7_witness :
    (trans_result (some [c7Item])).texts[0]? =
        some ((([c7Item] : List RawOcrItem).get ⟨0, by decide⟩).text) ∧
    (trans_result (some [c7Item])).scores[0]? =
        some (formatFixed 2 (([c7Item] : List RawOcrItem).get ⟨0, by decide⟩).score) ∧
    (trans_result (some [c7Item])).boxes[0]? =
        some (boxOf (([c7Item] : List RawOcrItem).get ⟨0, by decide⟩)) :=
  (C7_trans_result_aligned (some [c7Item])).2.2 [c7Item] rfl 0 (by decide)

/-! ### Claim C8 -/

/-- C8: an embedding vector is rendered with one fixed-16-decimal string per
component, preserving component order (the i-th string renders the i-th
component), and this rendering is exactly what the `/clip/img` and
`/clip/txt` handlers return when the engine call succeeds. -/
theorem C8_clip_render (vec : List ℚ) :
    (clip_render vec).length = vec.length ∧
    (∀ i, ∀ hi : i < vec.length,
      (clip_render vec)[i]? = some (formatFixed 16 (vec.get ⟨i, hi⟩))) ∧
    (∀ s ∈ clip_render vec, decimalsAfterPoint s = 16) ∧
    (∀ eng : ClipImgEngine, ∀ decoded st v, eng decoded = Except.ok v →
      (clip_process_image eng decoded st).2.2 =
        Except.ok (ClipResponse.ok (clip_render v))) ∧
    (∀ eng : ClipTxtEngine, ∀ text st v, eng text = Except.ok v →
      (clip_process_txt eng text st).2.2 =
        Except.ok (ClipResponse.ok (clip_render v))) := by
  refine ⟨by simp [clip_render], ?_, ?_, ?_, ?_⟩
  · intro i hi
    simp [clip_render, List.getElem?_map, List.getElem?_eq_getElem hi]
  · intro s hs
    simp only [clip_render, List.mem_map] at hs
    obtain ⟨v, _, rfl⟩ := hs
    exact decimalsAfterPoint_formatFixed 16 _
  · intro eng decoded st v h
    simp [clip_process_image, clip_img_try, h]
  · intro eng text st v h
    simp [clip_process_txt, h]

/-- Witness for C8 at a concrete one-component vector. -/
theorem C8_witness :
    (clip_render [((1 : ℤ) : ℚ)])[0]? =
        some (formatFixed 16 (([((1 : ℤ) : ℚ)] : List ℚ).get ⟨0, by decide⟩)) ∧
    (clip_process_image (fun _ => Except.ok [((1 : ℤ) : ℚ)]) none modelsInit).2.2 =
      Except.ok (ClipResponse.ok (clip_render [((1 : ℤ) : ℚ)])) :=
  ⟨(C8_clip_render [((1 : ℤ) : ℚ)]).2.1 0 (by decide),
    (C8_clip_render [((1 : ℤ) : ℚ)]).2.2.2.1 (fun _ => Except.ok [((1 : ℤ) : ℚ)]) none
      modelsInit [((1 : ℤ) : ℚ)] rfl⟩

/-! ### Claim C1 -/

/-- C1, counterexample: the claim says `/clip/img` returns the bounds
soft-fail and never invokes the engine on a decodable image whose width
exceeds 10000px.  But `clip_process_image` has no dimension check: on a
20001-pixel-wide image it invokes the CLIP engine and returns the engine's
result, not the bounds message. -/
theorem C1_counterexample :
    Event.invokeClipImg (some { width := 20001, height := 5 }) ∈
      (clip_process_image (fun _ => Except.ok [])
        (some { width := 20001, height := 5 }) modelsInit).2.1 ∧
    (clip_process_image (fun _ => Except.ok [])
        (some { width := 20001, height := 5 }) modelsInit).2.2 ≠
      Except.ok (ClipResponse.softFail boundsMsg) := by
  constructor
  · simp [clip_process_image, load_clip_img_model, clip_img_try, modelsInit]
  · simp [clip_process_image, load_clip_img_model, clip_img_try, modelsInit, clip_render]

/-- C1 (amended): on `/ocr`, a decodable image whose width or height exceeds
10000px yields the bounds soft-fail `{'result': [], 'msg': 'height or width
out of range'}` and the OCR engine is never invoked; `/clip/img` performs no
dimension check and invokes its engine even on such an image. -/
theorem C1_bounds_check (eng : OcrEngine) (ceng : ClipImgEngine) (img : Image)
    (st : Models) (hbig : img.width > 10000 ∨ img.height > 10000) :
    ((process_image eng (some img) st).2.2 =
        Except.ok (OcrResponse.softFail boundsMsg) ∧
      ∀ e ∈ (process_image eng (some img) st).2.1, e.isInvoke = false) ∧
    Event.invokeClipImg (some img) ∈ (clip_process_image ceng (some img) st).2.1 := by
  constructor
  · cases h : st.rapid_ocr <;>
      simp [process_image, load_ocr_model, h, ocr_try, hbig, Event.isInvoke]
  · cases h : st.clip_img_model <;> cases hc : ceng (some img) <;>
      simp [clip_process_image, load_clip_img_model, clip_img_try, h, hc]

/-- Witness for C1's amended theorem at a concrete oversized image. -/
theorem C1_bounds_check_witness :
    (process_image (fun _ => Except.ok none) (some { width := 20001, height := 5 })
        modelsInit).2.2 = Except.ok (OcrResponse.softFail boundsMsg) ∧
    Event.invokeClipImg (some { width := 20001, height := 5 }) ∈
      (clip_process_image (fun _ => Except.ok []) (some { width := 20001, height := 5 })
        modelsInit).2.1 := by
  have h := C1_bounds_check (fun _ => Except.ok none) (fun _ => Except.ok [])
    { width := 20001, height := 5 } modelsInit (Or.inl (by decide))
  exact ⟨h.1.1, h.2⟩

/-! ### Claim C2 -/

/-- C2, counterexample: the claim says every inference route, `/clip/txt`
included, converts engine failures to soft-fail responses.  But
`clip_process_txt` has no `try/except`: a raised engine error escapes the
handler as an unhandled fault. -/
theorem C2_counterexample :
    (clip_process_txt (fun _ => Except.error "Infer Request is busy") "hello"
        modelsInit).2.2 = Except.error "Infer Request is busy" := by
  simp [clip_process_txt, load_clip_txt_model, modelsInit]

/-- C2 (amended): on `/ocr` and `/clip/img` every decode or engine failure is
caught by the handler's `try/except` and converted to the soft-fail response
carrying the failure's message — a decode failure on `/ocr` (the
`AttributeError` from `None.shape`) yields `{'result': [], 'msg': str(e)}`,
an engine error on either route yields `{'result': [], 'msg': str(e)}`, and
the handler outcome is always a normal response, never an unhandled fault —
but on `/clip/txt`, which has no `try/except`, an engine failure propagates
out of the handler unhandled. -/
theorem C2_dispatch_failures (eng : OcrEngine) (ceng : ClipImgEngine)
    (teng : ClipTxtEngine) (decoded : Option Image) (text : String) (st : Models) :
    ((∃ r, (process_image eng decoded st).2.2 = Except.ok r) ∧
      (process_image eng none st).2.2 = Except.ok (OcrResponse.softFail noneShapeMsg) ∧
      (∀ img msg, decoded = some img →
        ¬(img.width > 10000 ∨ img.height > 10000) →
        eng img = Except.error msg →
        (process_image eng decoded st).2.2 = Except.ok (OcrResponse.softFail msg))) ∧
    ((∃ r, (clip_process_image ceng decoded st).2.2 = Except.ok r) ∧
      (∀ msg, ceng decoded = Except.error msg →
        (clip_process_image ceng decoded st).2.2 =
          Except.ok (ClipResponse.softFail msg))) ∧
    (∀ msg, teng text = Except.error msg →
      (clip_process_txt teng text st).2.2 = Except.error msg) := by
  refine ⟨⟨?_, ?_, ?_⟩, ⟨?_, ?_⟩, ?_⟩
  · rcases h : ocr_try eng decoded with ⟨ev2, body⟩
    cases body with
    | ok r => exact ⟨r, by simp [process_image, h]⟩
    | error e => exact ⟨.softFail e, by simp [process_image, h]⟩
  · simp [process_image, ocr_try]
  · rintro img msg rfl hsmall herr
    simp [process_image, ocr_try, hsmall, herr]
  · rcases h : clip_img_try ceng decoded with ⟨ev2, body⟩
    cases body with
    | ok r => exact ⟨r, by simp [clip_process_image, h]⟩
    | error e => exact ⟨.softFail e, by simp [clip_process_image, h]⟩
  · intro msg h
    simp [clip_process_image, clip_img_try, h]
  · intro msg h
    simp [clip_process_txt, h]

/-- Witness for C2's amended theorem: a failing OCR engine, a failing CLIP
image engine and a failing CLIP text engine at concrete inputs — the first
two are converted to the soft-fail response carrying the message, the third
escapes unhandled. -/
theorem C2_dispatch_failures_witness :
    (process_image (fun _ => Except.error "ocr boom")
        (some { width := 5, height := 5 }) modelsInit).2.2 =
      Except.ok (OcrResponse.softFail "ocr boom") ∧
    (clip_process_image (fun _ => Except.error "clip boom")
        (some { width := 5, height := 5 }) modelsInit).2.2 =
      Except.ok (ClipResponse.softFail "clip boom") ∧
    (clip_process_txt (fun _ => Except.error "boom") "hi" modelsInit).2.2 =
      Except.error "boom" :=
  ⟨(C2_dispatch_failures (fun _ => Except.error "ocr boom")
      (fun _ => Except.error "clip boom") (fun _ => Except.error "boom")
      (some { width := 5, height := 5 }) "hi" modelsInit).1.2.2
      { width := 5, height := 5 } "ocr boom" rfl (by decide) rfl,
    (C2_dispatch_failures (fun _ => Except.error "ocr boom")
      (fun _ => Except.error "clip boom") (fun _ => Except.error "boom")
      (some { width := 5, height := 5 }) "hi" modelsInit).2.1.2 "clip boom" rfl,
    (C2_dispatch_failures (fun _ => Except.error "ocr boom")
      (fun _ => Except.error "clip boom") (fun _ => Except.error "boom")
      (some { width := 5, height := 5 }) "hi" modelsInit).2.2 "boom" rfl⟩

/-! ### Claim C10 -/

/-- C10: on `/ocr` and `/clip/img` the model load happens before the uploaded
bytes are read or decoded, so whatever the decode result and the engine
behavior — decode failure and oversized images included — the handler leaves
the model slot loaded. -/
theorem C10_load_before_read (eng : OcrEngine) (ceng : ClipImgEngine)
    (decoded : Option Image) (st : Models) :
    (process_image eng decoded st).1.rapid_ocr = true ∧
    (clip_process_image ceng decoded st).1.clip_img_model = true := by
  constructor
  · rcases h : ocr_try eng decoded with ⟨ev2, body⟩
    cases h0 : st.rapid_ocr <;> cases body <;>
      simp [process_image, load_ocr_model, h, h0]
  · rcases h : clip_img_try ceng decoded with ⟨ev2, body⟩
    cases h0 : st.clip_img_model <;> cases body <;>
      simp [clip_process_image, load_clip_img_model, h, h0]

/-! ### Claim C4 -/

/-- C4: a request proceeds past `verify_header` if and only if the supplied
`api-key` header equals the configured secret; on mismatch the dependency
raises HTTP 401 (`Invalid API key`) and the handler — and hence any model
work — is never reached: the state is untouched and no events occur. -/
theorem C4_auth {α : Type} (secret key : String)
    (handler : Models → Models × List Event × α) (st : Models) :
    (verify_header secret key = Except.ok key ↔ key = secret) ∧
    (key ≠ secret →
      protected_route secret key handler st =
        (st, [], Except.error { status_code := 401, detail := "Invalid API key" })) ∧
    (key = secret →
      protected_route secret key handler st =
        ((handler st).1, (handler st).2.1, Except.ok (handler st).2.2)) := by
  refine ⟨⟨fun h => ?_, fun h => ?_⟩, fun h => ?_, fun h => ?_⟩
  · by_contra hne
    simp [verify_header, hne] at h
  · simp [verify_header, h]
  · simp [protected_route, verify_header, h]
  · simp [protected_route, verify_header, h]

/-- Witness for C4 with the default configured secret and both a matching and
a mismatched key. -/
theorem C4_auth_witness :
    verify_header "mt_photos_ai_extra" "mt_photos_ai_extra" =
      Except.ok "mt_photos_ai_extra" ∧
    protected_route "mt_photos_ai_extra" "wrong-key"
        (fun st => (st, [], (0 : ℕ))) modelsInit =
      (modelsInit, [], Except.error { status_code := 401, detail := "Invalid API key" }) :=
  ⟨(C4_auth "mt_photos_ai_extra" "mt_photos_ai_extra"
      (fun st => (st, [], (0 : ℕ))) modelsInit).1.mpr rfl,
    (C4_auth "mt_photos_ai_extra" "wrong-key"
      (fun st => (st, [], (0 : ℕ))) modelsInit).2.1 (by decide)⟩

/-! ### Claim C6 -/

/-- C6: `/restart` returns `{'result': 'pass'}` and never replaces the
process (its `restart_program()` call is commented out), while `/restart_v2`
always replaces the process, re-executing the interpreter on the original
argument vector (`os.execl(sys.executable, sys.executable, *sys.argv)`), and
never returns a reply. -/
theorem C6_restart_routes (p : Proc) :
    (restart_handler p = ProcOutcome.reply "pass" ∧
      ∀ exe args, restart_handler p ≠ ProcOutcome.reexec exe args) ∧
    ((∀ s, restart_v2_handler p ≠ ProcOutcome.reply s) ∧
      restart_v2_handler p =
        ProcOutcome.reexec p.executable (p.executable :: p.argv)) := by
  refine ⟨⟨rfl, ?_⟩, ⟨?_, rfl⟩⟩
  · intro exe args h
    simp [restart_handler] at h
  · intro s h
    simp [restart_v2_handler, restart_program] at h

/-! ### Claim C5 -/

/-- While the pending timer's deadline stays ahead of every subsequent
request, each request cancels it and re-arms, and only the final timer
fires — at `w` after the last request. -/
theorem watchdogRun_armed {α : Type} [LinearOrder α] [Add α] (w : α) :
    ∀ (ts : List α) (t : α), List.Chain' (fun a b => a < b ∧ b < a + w) (t :: ts) →
      watchdogRun w (some (t + w)) ts =
        [(t :: ts).getLast (List.cons_ne_nil t ts) + w] := by
  intro ts
  induction ts with
  | nil => intro t _; rfl
  | cons t2 rest ih =>
    intro t hchain
    have hrel : t < t2 ∧ t2 < t + w := List.chain'_cons.1 hchain |>.1
    have htail : List.Chain' (fun a b => a < b ∧ b < a + w) (t2 :: rest) :=
      List.chain'_cons.1 hchain |>.2
    have hnotle : ¬ t + w ≤ t2 := not_le.2 hrel.2
    calc watchdogRun w (some (t + w)) (t2 :: rest)
        = watchdogRun w (some (t2 + w)) rest := by
          simp [watchdogRun, hnotle, check_activity]
      _ = [(t2 :: rest).getLast (List.cons_ne_nil t2 rest) + w] := ih t2 htail
      _ = [(t :: t2 :: rest).getLast (List.cons_ne_nil t (t2 :: rest)) + w] := by
          rw [List.getLast_cons (List.cons_ne_nil t2 rest)]

/-- C5, counterexample: the claim asserts that at every instant exactly one
pending watchdog timer exists, but the module initializes
`restart_timer = None` (line 24): before the first request arrives, zero
timers are pending. -/
theorem C5_counterexample :
    pendingCount (watchdogInit : Option ℚ) = 0 ∧
    pendingCount (watchdogInit : Option ℚ) ≠ 1 := by
  constructor <;> decide

/-- C5 (amended): before the first request no timer is pending; from the
first request onward exactly one pending timer exists — each request
(atomically, there being no await point in the middleware between cancel and
start) cancels any pending timer and schedules a new one `w` in the future —
and for any sequence of requests each arriving within less than the idle
window of the previous, no restart fires before `w` past the last request,
and exactly one restart fires once that gap is exceeded. -/
theorem C5_watchdog {α : Type} [LinearOrder α] [Add α] (w : α) (ts : List α)
    (hne : ts ≠ [])
    (hchain : List.Chain' (fun a b => a < b ∧ b < a + w) ts) :
    (∀ (now : α) (p : Option α), pendingCount (check_activity w now p) = 1) ∧
    watchdogRun w watchdogInit ts = [ts.getLast hne + w] ∧
    (∀ T, T < ts.getLast hne + w → restartsBy w ts T = 0) ∧
    (∀ T, ts.getLast hne + w ≤ T → restartsBy w ts T = 1) := by
  have hrun : watchdogRun w watchdogInit ts = [ts.getLast hne + w] := by
    cases ts with
    | nil => exact absurd rfl hne
    | cons t rest =>
      have h1 : watchdogRun w watchdogInit (t :: rest) =
          watchdogRun w (some (t + w)) rest := by
        simp [watchdogRun, watchdogInit, check_activity]
      rw [h1, watchdogRun_armed w rest t hchain]
  refine ⟨fun now p => rfl, hrun, ?_, ?_⟩
  · intro T hT
    have : ¬ ts.getLast hne + w ≤ T := not_le.2 hT
    simp [restartsBy, hrun, List.filter, this]
  · intro T hT
    simp [restartsBy, hrun, List.filter, hT]

/-- Witness for C5 at integer times: requests at 0 and 1 with window 2; no
restart by time 2, exactly one by time 3. -/
theorem C5_watchdog_witness :
    watchdogRun 2 watchdogInit [(0 : ℤ), 1] = [3] ∧
    restartsBy 2 [(0 : ℤ), 1] 2 = 0 ∧
    restartsBy 2 [(0 : ℤ), 1] 3 = 1 := by
  have h := C5_watchdog 2 [(0 : ℤ), 1] (by decide)
    (List.chain'_cons.2 ⟨⟨by decide, by decide⟩, List.chain'_singleton 1⟩)
  refine ⟨h.2.1.trans (by decide), h.2.2.1 2 (by decide), h.2.2.2 3 (by decide)⟩

/-! ### Claim C9 -/

/-- One atomic load step preserves the bound "a kind's construction events
number at most one, and zero while its slot is unloaded". -/
theorem loadFor_preserves (k' : ModelKind) (m : Models) (evs : List Event)
    (h : ∀ k, evs.count (constructEvent k) ≤ if slotLoaded m k then 1 else 0)
    (k : ModelKind) :
    (evs ++ (loadFor k' m).2).count (constructEvent k) ≤
      if slotLoaded (loadFor k' m).1 k then 1 else 0 := by
  have hk := h k
  cases k' <;> cases k <;>
    simp only [loadFor, load_ocr_model, load_clip_img_model, load_clip_txt_model,
      slotLoaded, constructEvent] at hk ⊢ <;>
    split_ifs at hk ⊢ <;>
    simp_all [List.count_append]

/-- Any schedule keeps every kind's construction count at most one (and zero
while the slot is unloaded). -/
theorem runSchedule_bound (acts : List ModelKind) :
    ∀ (m : Models) (evs : List Event),
      (∀ k, evs.count (constructEvent k) ≤ if slotLoaded m k then 1 else 0) →
      ∀ k, (runSchedule (m, evs) acts).2.count (constructEvent k) ≤
        if slotLoaded (runSchedule (m, evs) acts).1 k then 1 else 0 := by
  induction acts with
  | nil => intro m evs h k; exact h k
  | cons k' rest ih =>
    intro m evs h k
    rcases hl : loadFor k' m with ⟨m1, evs1⟩
    have hrun : runSchedule (m, evs) (k' :: rest) = runSchedule (m1, evs ++ evs1) rest := by
      simp [runSchedule, hl]
    rw [hrun]
    refine ih m1 (evs ++ evs1) ?_ k
    intro k2
    have := loadFor_preserves k' m evs h k2
    rw [hl] at this
    exact this

/-- C9: under the cooperative event loop each `load_*_model` call is one
atomic test-and-set step, so for any interleaving of any number of
concurrent first-time requests (any schedule of load steps from the initial
all-`None` state), each model kind is constructed at most once; and a load
step always returns with its kind's slot fully set, so no request observes a
half-constructed handle. -/
theorem C9_single_flight (acts : List ModelKind) (k : ModelKind) :
    (runSchedule (modelsInit, []) acts).2.count (constructEvent k) ≤ 1 ∧
    ∀ st : Models, slotLoaded ((loadFor k st).1) k = true := by
  constructor
  · have := runSchedule_bound acts modelsInit []
      (by intro k2; simp) k
    split_ifs at this <;> omega
  · intro st
    cases k <;>
      simp [loadFor, load_ocr_model, load_clip_img_model, load_clip_txt_model, slotLoaded] <;>
      split_ifs <;> simp_all [slotLoaded]

end MTPhotosAI
